import Mathlib

/-!
Verification of the conversation-session and message-dispatch component of
the Telegram ChatGPT bot repository (bot.py, web_server.py, run_combined.py).

The Python source is shallowly embedded: each relevant Python function is
translated into an executable Lean definition over explicit state.  Strings
are Lean strings, Python integers are Lean Int/Nat, JSON values are an
inductive type, the mutable module-level dictionaries (user_conversations,
bot_stats) are explicit state parameters, and Python exceptions become
Except results.
-/

namespace TelegramBot

/-- JSON values as delivered by Flask request.get_json in web_server.py.
Numbers are modelled as integers (all identifiers in the repository are
integral). -/
inductive Json where
  | null : Json
  | bool (b : Bool) : Json
  | num (n : Int) : Json
  | str (s : String) : Json
  | arr (elems : List Json) : Json
  | obj (fields : List (String × Json)) : Json

/-- Python equality between two scalar (hashable) values: containers never
reach the places where this is used, and Python equality across scalar
types is false (the bool/int conflation of Python is not reachable from
the repository's inputs). -/
def eqPrim : Json → Json → Bool
  | .null, .null => true
  | .bool a, .bool b => a == b
  | .num a, .num b => a == b
  | .str a, .str b => a == b
  | _, _ => false

/-- Python substring test `pat in s` for strings. -/
def strContains (s pat : String) : Bool :=
  s.data.tails.any (fun t => pat.data.isPrefixOf t)

/-- One role-tagged chat message, the element type of user_conversations
in bot.py (a Python dict with keys "role" and "content"). -/
structure Message where
  role : String
  content : String
  deriving DecidableEq, Repr

/-- Python str.strip() on a string: remove leading and trailing whitespace,
as bot.py applies to the completion reply. -/
def pyStrip (s : String) : String :=
  ⟨((s.data.dropWhile Char.isWhitespace).reverse.dropWhile Char.isWhitespace).reverse⟩

/-- Python truthiness of a JSON value, used by the conditional
`if update_data and ...` in web_server.py webhook. -/
def truthy : Json → Bool
  | .null => false
  | .bool b => b
  | .num n => n != 0
  | .str s => s != ""
  | .arr l => !l.isEmpty
  | .obj f => !f.isEmpty

/-- Python membership test `"message" in update_data` (web_server.py line 70).
On a dict it tests key presence, on a string it is a substring test, on a
list it tests element membership; on other values Python raises TypeError,
modelled as Except.error. -/
def keyIn (j : Json) (key : String) : Except String Bool :=
  match j with
  | .obj fields => .ok (fields.any (fun kv => kv.1 == key))
  | .str s => .ok (strContains s key)
  | .arr l => .ok (l.any (fun x => eqPrim x (Json.str key)))
  | _ => .error "TypeError: argument is not iterable"

/-- Python dict subscript `j[key]` (web_server.py line 72): KeyError when the
key is absent, TypeError when the value is not a dict. -/
def jGet (j : Json) (key : String) : Except String Json :=
  match j with
  | .obj fields =>
    match fields.find? (fun kv => kv.1 == key) with
    | some kv => .ok kv.2
    | none => .error "KeyError"
  | _ => .error "TypeError: value is not subscriptable"

/-- Whether a Python value may be added to a set (set.add raises TypeError
on unhashable values: lists and dicts). -/
def hashable : Json → Bool
  | .arr _ => false
  | .obj _ => false
  | _ => true

/-- The bot_stats dictionary of web_server.py (lines 23-31).  active_users
is a Python set, modelled as a duplicate-free list of JSON-representable
values; timestamps are abstract Nat instants. -/
structure Stats where
  status : String
  api_status : String
  start_time : Nat
  response_count : Nat
  active_users : List Json
  last_message_time : Option Nat
  average_response_time : ℚ

/-- The initial value of bot_stats at process start (web_server.py
lines 23-31), with process start at instant 0. -/
def bot_stats_init : Stats :=
  { status := "online"
    api_status := "connected"
    start_time := 0
    response_count := 0
    active_users := []
    last_message_time := none
    average_response_time := 5 / 2 }

/-- Python set.add on the modelled set: insert if not already present. -/
def setAdd (l : List Json) (v : Json) : List Json :=
  if l.any (fun x => eqPrim x v) then l else l ++ [v]

/-- The result of one webhook request: the stats afterwards, the HTTP status
code, and the body status/error indicator string. -/
structure WebhookResult where
  stats : Stats
  httpCode : Nat
  body : String

/-- The webhook POST handler of web_server.py (lines 64-87).  `parsed` is
the outcome of request.get_json (error = parse failure), `now` the current
instant.  Any exception inside the try block is answered with HTTP 500 and
leaves the stats untouched. -/
def webhook (parsed : Except String Json) (s : Stats) (now : Nat) : WebhookResult :=
  match parsed with
  | .error e => ⟨s, 500, e⟩
  | .ok j =>
    if truthy j then
      match keyIn j "message" with
      | .error e => ⟨s, 500, e⟩
      | .ok false => ⟨s, 200, "no_message"⟩
      | .ok true =>
        match ((jGet j "message").bind (fun m => jGet m "from")).bind (fun f => jGet f "id") with
        | .error e => ⟨s, 500, e⟩
        | .ok v =>
          if hashable v then
            ⟨{ s with active_users := setAdd s.active_users v
                      last_message_time := some now
                      response_count := s.response_count + 1 }, 200, "ok"⟩
          else ⟨s, 500, "TypeError: unhashable type"⟩
    else ⟨s, 200, "no_message"⟩

/-- Python truthiness of an optional string argument (absent or empty is
falsy), as tested by `if status:` in update_bot_stats. -/
def truthyStr : Option String → Bool
  | none => false
  | some s => s != ""

/-- Python truthiness of an optional rational argument (absent or zero is
falsy), as tested by `if response_time:` in update_bot_stats. -/
def truthyNum : Option ℚ → Bool
  | none => false
  | some q => q != 0

/-- Python truthiness of an optional integer argument (absent or zero is
falsy), as tested by `if user_id:` in update_bot_stats. -/
def truthyInt : Option Int → Bool
  | none => false
  | some i => i != 0

/-- update_bot_stats of web_server.py (lines 98-109): each guarded block
runs only when its argument is truthy; the user_id block adds the user to
the active set, stamps last_message_time and increments response_count. -/
def update_bot_stats (status api_status : Option String) (response_time : Option ℚ)
    (user_id : Option Int) (now : Nat) (s : Stats) : Stats :=
  let s1 := if truthyStr status then { s with status := status.getD "" } else s
  let s2 := if truthyStr api_status then { s1 with api_status := api_status.getD "" } else s1
  let s3 := if truthyNum response_time then
      { s2 with average_response_time := response_time.getD 0 } else s2
  if truthyInt user_id then
    { s3 with active_users := setAdd s3.active_users (Json.num (user_id.getD 0))
              last_message_time := some now
              response_count := s3.response_count + 1 }
  else s3

/-- The user_conversations module dictionary of bot.py (line 46): a partial
map from user id to that user's ordered history. -/
abbrev Convs : Type := Int → Option (List Message)

/-- The history read used by status_command (bot.py line 111):
user_conversations.get(user_id, []), i.e. the stored sequence or empty for
an unknown user.  This is the snapshot operation of the specification. -/
def snapshot (c : Convs) (uid : Int) : List Message :=
  (c uid).getD []

/-- The /clear handler clear_command of bot.py (lines 96-106): when the user
has an entry the history is reset to empty and a confirmation is sent,
otherwise the store is untouched and a no-history notice is sent.  Returns
the store afterwards and the reply text. -/
def clear_command (c : Convs) (uid : Int) : Convs × String :=
  match c uid with
  | some _ => (fun v => if v = uid then some [] else c v, "✅ Conversation history cleared!")
  | none => (c, "📝 No conversation history to clear.")

/-- The system prompt of generate_chatgpt_response (bot.py lines 179-184),
a concatenation of adjacent string literals in the source. -/
def system_prompt : String :=
  "You are a helpful AI assistant integrated into a Telegram bot. " ++
  "Provide clear, concise, and helpful responses. " ++
  "You can use emojis when appropriate to make conversations more engaging. " ++
  "Keep responses conversational and friendly."

/-- The chat-completion request sent by generate_chatgpt_response
(bot.py lines 192-199).  Sampling parameters are exact rationals. -/
structure ChatRequest where
  model : String
  messages : List Message
  max_tokens : Nat
  temperature : ℚ
  presence_penalty : ℚ
  frequency_penalty : ℚ

/-- One choice of the completion API response. -/
structure Choice where
  message : Message

/-- The completion API response body: a list of choices. -/
structure ApiResponse where
  choices : List Choice

/-- The request generate_chatgpt_response builds for a given history
(bot.py lines 176-199): the message list starts with the system message
and is extended with the stored history in order. -/
def generate_request (history : List Message) : ChatRequest :=
  { model := "openai/gpt-4o"
    messages := ⟨"system", system_prompt⟩ :: history
    max_tokens := 1000
    temperature := 7 / 10
    presence_penalty := 1 / 10
    frequency_penalty := 1 / 10 }

/-- generate_chatgpt_response of bot.py (lines 172-205).  The external API
is an oracle from the request to either a transport/API failure (with its
description) or a response body.  On success the content of choice 0 is
stripped and returned; an empty choice list raises IndexError inside the
try block; every exception is re-raised as the single failure message with
the underlying cause appended. -/
def generate_chatgpt_response (history : List Message)
    (api : ChatRequest → Except String ApiResponse) : Except String String :=
  match api (generate_request history) with
  | .error e => .error ("Failed to generate AI response: " ++ e)
  | .ok r =>
    match r.choices with
    | [] => .error ("Failed to generate AI response: " ++ "list index out of range")
    | c :: _ => .ok (pyStrip c.message.content)

/-- generate_chatgpt_response together with the trace of API requests it
issues.  The body of the source function contains a single call to
chat.completions.create and no loop, so the trace is always the one
request built from the history. -/
def generate_chatgpt_response_traced (history : List Message)
    (api : ChatRequest → Except String ApiResponse) :
    Except String String × List ChatRequest :=
  (generate_chatgpt_response history api, [generate_request history])

/-- self.max_conversation_length (bot.py line 52). -/
def max_conversation_length : Nat := 20

/-- The history-length limiter of handle_message (bot.py lines 146-147):
when the list exceeds max_conversation_length, keep only its most recent
max_conversation_length entries (Python slice with negative start). -/
def trim_history (l : List Message) : List Message :=
  if l.length > max_conversation_length then
    l.drop (l.length - max_conversation_length)
  else l

/-- The chunk loop of send_long_message (bot.py lines 213-215):
message[i:i+max_length] for i in range(0, len(message), max_length),
for a positive max_length M (`M` below is the predecessor form M = m):
each step takes max(1, M) characters. -/
def chunksAux (m : Nat) : List Char → List (List Char)
  | [] => []
  | c :: cs => (c :: cs.take m) :: chunksAux m (cs.drop m)
  termination_by l => l.length
  decreasing_by
    simp only [List.length_cons, List.length_drop]
    omega

/-- send_long_message of bot.py (lines 207-217) as the list of message
texts sent, in order: a single message when the text fits in max_length,
otherwise the consecutive max_length-sized slices. -/
def send_long_message (message : List Char) (max_length : Nat) : List (List Char) :=
  if message.length ≤ max_length then [message]
  else chunksAux (max_length - 1) message

/-- The error notice built in the except branch of handle_message
(bot.py lines 164-168). -/
def error_message (e : String) : String :=
  "❌ I'm sorry, I encountered an error while processing your message. " ++
  "Please try again in a moment.\n\n" ++ "Error details: " ++ e

/-- The process state the dispatcher can reach: the per-user conversation
map of bot.py and the bot_stats dictionary of web_server.py. -/
structure BotState where
  convs : Convs
  stats : Stats

/-- handle_message of bot.py (lines 123-170) for one inbound text from
user uid: ensure the history entry exists, append the user message, trim
to the most recent max_conversation_length entries when the bound is
exceeded, call the completion API, and on success append the assistant
reply and send it chunked; on failure send the error notice and change
nothing further.  Returns the state afterwards and the outbound message
texts. -/
def handle_message (st : BotState) (uid : Int) (text : String)
    (api : ChatRequest → Except String ApiResponse) : BotState × List (List Char) :=
  let conv2 := trim_history ((st.convs uid).getD [] ++ [⟨"user", text⟩])
  match generate_chatgpt_response conv2 api with
  | .ok response =>
    let conv3 := conv2 ++ [⟨"assistant", response⟩]
    ({ st with convs := fun v => if v = uid then some conv3 else st.convs v },
     send_long_message response.data 4096)
  | .error e =>
    ({ st with convs := fun v => if v = uid then some conv2 else st.convs v },
     [(error_message e).data])

/-- The state at process start: no conversations, fresh stats. -/
def initState : BotState :=
  { convs := fun _ => none, stats := bot_stats_init }

/-- An API oracle that always succeeds with the fixed reply "ok". -/
def okApi : ChatRequest → Except String ApiResponse :=
  fun _ => .ok ⟨[⟨⟨"assistant", "ok"⟩⟩]⟩

/-- n consecutive successful inbound-message cycles for user 1. -/
def runCycles : Nat → BotState → BotState
  | 0, st => st
  | n + 1, st => runCycles n (handle_message st 1 "hi" okApi).1

/-- A state in which user 1 already holds a full history of
max_conversation_length = 20 messages. -/
def st20 : BotState :=
  { convs := fun v => if v = 1 then some (List.replicate 20 ⟨"user", "x"⟩) else none
    stats := bot_stats_init }

/-- An API oracle that always fails with the given cause. -/
def failApi (e : String) : ChatRequest → Except String ApiResponse :=
  fun _ => .error e

/-! ## Helper lemmas about the chunk loop and the history trim -/

theorem chunksAux_flatten (m : Nat) (l : List Char) : (chunksAux m l).flatten = l := by
  induction l using chunksAux.induct m with
  | case1 => simp [chunksAux]
  | case2 c cs ih =>
    rw [chunksAux]
    simp only [List.flatten_cons, List.cons_append]
    rw [ih]
    simp [List.take_append_drop]

theorem chunksAux_length (m : Nat) (l : List Char) :
    (chunksAux m l).length = (l.length + m) / (m + 1) := by
  induction l using chunksAux.induct m with
  | case1 => simp [chunksAux, Nat.div_eq_of_lt (Nat.lt_succ_self m)]
  | case2 c cs ih =>
    rw [chunksAux]
    simp only [List.length_cons, List.length_drop] at *
    rw [ih]
    rcases le_or_lt cs.length m with h | h
    · have h3 : (cs.length + 1 + m) / (m + 1) = 1 :=
        Nat.div_eq_of_lt_le (by omega) (by omega)
      rw [Nat.sub_eq_zero_of_le h, Nat.zero_add,
        Nat.div_eq_of_lt (show m < m + 1 by omega), h3]
    · have h1 : cs.length - m + m = cs.length := by omega
      have h2 : cs.length + 1 + m = cs.length + (m + 1) := by omega
      rw [h1, h2, Nat.add_div_right _ (by omega)]

theorem chunksAux_dropLast_length (m : Nat) (l : List Char) :
    ∀ chunk ∈ (chunksAux m l).dropLast, chunk.length = m + 1 := by
  induction l using chunksAux.induct m with
  | case1 => simp [chunksAux]
  | case2 c cs ih =>
    rw [chunksAux]
    intro chunk hc
    rcases h : chunksAux m (cs.drop m) with _ | ⟨r, rs⟩
    · rw [h] at hc; simp at hc
    · rw [h] at hc ih
      rw [List.dropLast_cons_of_ne_nil (by simp)] at hc
      rcases List.mem_cons.mp hc with h1 | h1
      · subst h1
        have hne : cs.drop m ≠ [] := by
          intro hnil
          rw [hnil] at h; simp [chunksAux] at h
        have hlt : m < cs.length := by
          by_contra hle
          exact hne (List.drop_eq_nil_of_le (by omega))
        simp [List.length_take]
        omega
      · exact ih chunk h1

theorem send_long_message_count (msg : List Char) (M : Nat) (hM : 0 < M) :
    (send_long_message msg M).length =
      if msg.length = 0 then 1 else (msg.length + M - 1) / M := by
  unfold send_long_message
  by_cases hle : msg.length ≤ M
  · rw [if_pos hle]
    rcases Nat.eq_zero_or_pos msg.length with h0 | hpos
    · rw [if_pos h0]; rfl
    · rw [if_neg (by omega)]
      have h3 : (msg.length + M - 1) / M = 1 :=
        Nat.div_eq_of_lt_le (by omega) (by omega)
      rw [h3]; rfl
  · rw [if_neg hle, if_neg (by omega), chunksAux_length]
    congr 1 <;> omega

theorem send_long_message_flatten (msg : List Char) (M : Nat) :
    (send_long_message msg M).flatten = msg := by
  unfold send_long_message
  split
  · simp
  · exact chunksAux_flatten (M - 1) msg

theorem send_long_message_dropLast (msg : List Char) (M : Nat) (hM : 0 < M) :
    ∀ chunk ∈ (send_long_message msg M).dropLast, chunk.length = M := by
  unfold send_long_message
  split
  · simp
  · intro chunk hc
    have := chunksAux_dropLast_length (M - 1) msg chunk hc
    omega

theorem send_long_message_concrete :
    (send_long_message (List.replicate 10000 'a') 4096).map List.length =
      [4096, 4096, 1808] := by
  have hcount : (send_long_message (List.replicate 10000 'a') 4096).length = 3 := by
    rw [send_long_message_count _ _ (by norm_num)]
    norm_num
  obtain ⟨a, b, c, habc⟩ := List.length_eq_three.mp hcount
  have hflat := send_long_message_flatten (List.replicate 10000 'a') 4096
  have hdrop := send_long_message_dropLast (List.replicate 10000 'a') 4096 (by norm_num)
  rw [habc] at hflat hdrop ⊢
  have ha : a.length = 4096 := hdrop a (by simp)
  have hb : b.length = 4096 := hdrop b (by simp)
  have hc : c.length = 1808 := by
    have hlen := congrArg List.length hflat
    simp only [List.flatten_cons, List.flatten_nil, List.length_append,
      List.length_nil, List.length_replicate] at hlen
    omega
  simp [ha, hb, hc]

theorem length_trim_history (l : List Message) :
    (trim_history l).length = min l.length max_conversation_length := by
  unfold trim_history
  split <;> simp [List.length_drop] <;> omega

theorem length_trim_le (l : List Message) :
    (trim_history l).length ≤ max_conversation_length := by
  rw [length_trim_history]
  omega

theorem handle_message_convs_ok (st : BotState) (uid : Int) (text : String)
    (api : ChatRequest → Except String ApiResponse) (r : String)
    (h : generate_chatgpt_response
      (trim_history ((st.convs uid).getD [] ++ [⟨"user", text⟩])) api = Except.ok r) :
    (handle_message st uid text api).1.convs uid =
      some (trim_history ((st.convs uid).getD [] ++ [⟨"user", text⟩]) ++ [⟨"assistant", r⟩]) := by
  simp only [handle_message]
  rw [h]
  simp

theorem handle_message_convs_err (st : BotState) (uid : Int) (text : String)
    (api : ChatRequest → Except String ApiResponse) (e : String)
    (h : generate_chatgpt_response
      (trim_history ((st.convs uid).getD [] ++ [⟨"user", text⟩])) api = Except.error e) :
    (handle_message st uid text api).1.convs uid =
      some (trim_history ((st.convs uid).getD [] ++ [⟨"user", text⟩])) := by
  simp only [handle_message]
  rw [h]
  simp

/-! ## Claim theorems -/

/-- C1 counterexample: starting from the empty store, eleven consecutive
successful inbound-message cycles for user 1 leave a history of
max_conversation_length + 1 = 21 entries, so the history length is NOT
bounded by the configured maximum 20 after every append performed by the
message handler (the assistant append is not followed by a trim). -/
theorem history_exceeds_max_after_eleven_cycles :
    (snapshot (runCycles 11 initState).convs 1).length = max_conversation_length + 1 := by
  decide

/-- C1 (amended): after any full inbound-message cycle the history length
is at most max_conversation_length + 1 = 21; when the completion call
fails the cycle ends right after the user-append trim, and the length is
at most max_conversation_length = 20.  The handler trims only at the user
append, so the assistant append may briefly leave 21 entries. -/
theorem handle_message_length_bound (st : BotState) (uid : Int) (text : String)
    (api : ChatRequest → Except String ApiResponse) (e : String) :
    (snapshot (handle_message st uid text api).1.convs uid).length ≤ max_conversation_length + 1
    ∧ (snapshot (handle_message st uid text (failApi e)).1.convs uid).length
        ≤ max_conversation_length := by
  constructor
  · rcases hgen : generate_chatgpt_response
      (trim_history ((st.convs uid).getD [] ++ [⟨"user", text⟩])) api with e1 | r
    · simp only [snapshot]
      rw [handle_message_convs_err st uid text api e1 hgen]
      simp only [Option.getD_some]
      have := length_trim_le ((st.convs uid).getD [] ++ [⟨"user", text⟩])
      omega
    · simp only [snapshot]
      rw [handle_message_convs_ok st uid text api r hgen]
      simp only [Option.getD_some, List.length_append, List.length_cons, List.length_nil]
      have := length_trim_le ((st.convs uid).getD [] ++ [⟨"user", text⟩])
      omega
  · have hgen : generate_chatgpt_response
      (trim_history ((st.convs uid).getD [] ++ [⟨"user", text⟩])) (failApi e)
        = Except.error ("Failed to generate AI response: " ++ e) := rfl
    simp only [snapshot]
    rw [handle_message_convs_err st uid text (failApi e) _ hgen]
    simp only [Option.getD_some]
    exact length_trim_le _

/-- C1 witness for the amended bound, at a concrete state: one successful
cycle from the full-history state st20 yields exactly 21 entries. -/
theorem handle_message_length_bound_witness :
    (snapshot (handle_message st20 1 "hi" okApi).1.convs 1).length
        ≤ max_conversation_length + 1
    ∧ (snapshot (handle_message st20 1 "hi" (failApi "boom")).1.convs 1).length
        ≤ max_conversation_length :=
  handle_message_length_bound st20 1 "hi" okApi "boom"

/-- C2 counterexample: one successful inbound-message cycle from the fresh
process state delivers the reply (the outbound list is the reply text, not
an error notice), yet leaves response_count at 0, active_users empty and
last_message_time unset: handle_message never touches the stats
dictionary, so the StatsRegistry is NOT mutated on successful dispatch. -/
theorem successful_cycle_leaves_stats_unchanged :
    (handle_message initState 1 "hi" okApi).2 = ["ok".data]
    ∧ (handle_message initState 1 "hi" okApi).1.stats.response_count = 0
    ∧ (handle_message initState 1 "hi" okApi).1.stats.active_users = []
    ∧ (handle_message initState 1 "hi" okApi).1.stats.last_message_time = none :=
  ⟨rfl, rfl, rfl, rfl⟩

/-- C2 (amended): the message handler leaves the shared stats structure
completely unchanged on every cycle, successful or failed; the stats are
mutated only by the web server webhook handler (and by update_bot_stats,
which no bot code calls). -/
theorem handle_message_preserves_stats (st : BotState) (uid : Int) (text : String)
    (api : ChatRequest → Except String ApiResponse) :
    (handle_message st uid text api).1.stats = st.stats := by
  simp only [handle_message]
  split <;> rfl

/-- C3 counterexample: with the history already at the configured maximum
of 20 entries, a cycle whose completion call fails leaves 20 entries, not
before + 1 = 21: the user append pushed the length to 21 and the trim ran
before the failing call. -/
theorem failed_cycle_at_capacity_not_plus_one :
    (snapshot st20.convs 1).length = 20
    ∧ (snapshot (handle_message st20 1 "hi" (failApi "boom")).1.convs 1).length = 20
    ∧ (snapshot (handle_message st20 1 "hi" (failApi "boom")).1.convs 1).length
        ≠ (snapshot st20.convs 1).length + 1 := by
  refine ⟨by decide, by decide, by decide⟩

/-- C3 (amended): when the completion call fails, the history afterwards
holds min(before + 1, 20) entries: the inbound user message is appended
and no assistant message is appended, and when the bound is exceeded the
trim drops the oldest entry within the same cycle. -/
theorem handle_message_failure_history_length (st : BotState) (uid : Int)
    (text : String) (e : String) :
    (snapshot (handle_message st uid text (failApi e)).1.convs uid).length
      = min ((snapshot st.convs uid).length + 1) max_conversation_length := by
  have hgen : generate_chatgpt_response
      (trim_history ((st.convs uid).getD [] ++ [⟨"user", text⟩])) (failApi e)
        = Except.error ("Failed to generate AI response: " ++ e) := rfl
  simp only [snapshot]
  rw [handle_message_convs_err st uid text (failApi e) _ hgen]
  simp only [Option.getD_some]
  rw [length_trim_history]
  simp [List.length_append]

/-- C4: for a positive maxLength M, the chunked-delivery procedure sends
exactly ceil(L/M) messages (exactly 1 when L = 0), their concatenation in
send order is the original text, every chunk except possibly the last has
length exactly M, and the concrete 10000-character text with M = 4096
yields chunks of lengths 4096, 4096, 1808. -/
theorem send_long_message_spec (msg : List Char) (M : Nat) (hM : 0 < M) :
    ((send_long_message msg M).length =
        if msg.length = 0 then 1 else (msg.length + M - 1) / M)
    ∧ (send_long_message msg M).flatten = msg
    ∧ (∀ chunk ∈ (send_long_message msg M).dropLast, chunk.length = M)
    ∧ (send_long_message (List.replicate 10000 'a') 4096).map List.length =
        [4096, 4096, 1808] :=
  ⟨send_long_message_count msg M hM, send_long_message_flatten msg M,
   send_long_message_dropLast msg M hM, send_long_message_concrete⟩

/-- C4 witness: the chunking specification evaluated at the two-character
text "hi" with maxLength 1. -/
theorem send_long_message_spec_witness :
    ((send_long_message ('h' :: 'i' :: []) 1).length =
        if ('h' :: 'i' :: []).length = 0 then 1
        else (('h' :: 'i' :: []).length + 1 - 1) / 1)
    ∧ (send_long_message ('h' :: 'i' :: []) 1).flatten = ('h' :: 'i' :: []) :=
  ⟨(send_long_message_spec ('h' :: 'i' :: []) 1 (by decide)).1,
   (send_long_message_spec ('h' :: 'i' :: []) 1 (by decide)).2.1⟩

/-- C5: the completion call builds the request message list as the fixed
system-prompt message followed by the stored history in order, uses
temperature 0.7, max output tokens 1000, presence penalty 0.1, frequency
penalty 0.1 and the model identifier "openai/gpt-4o", and on success
returns the whitespace-stripped content of the first choice. -/
theorem generate_request_and_success_spec (history : List Message) :
    (generate_request history).messages = Message.mk "system" system_prompt :: history
    ∧ (generate_request history).model = "openai/gpt-4o"
    ∧ (generate_request history).max_tokens = 1000
    ∧ (generate_request history).temperature = 7 / 10
    ∧ (generate_request history).presence_penalty = 1 / 10
    ∧ (generate_request history).frequency_penalty = 1 / 10
    ∧ ∀ (api : ChatRequest → Except String ApiResponse) (r : ApiResponse)
        (c : Choice) (rest : List Choice),
        api (generate_request history) = Except.ok r → r.choices = c :: rest →
        generate_chatgpt_response history api = Except.ok (pyStrip c.message.content) := by
  refine ⟨rfl, rfl, rfl, rfl, rfl, rfl, ?_⟩
  intro api r c rest h1 h2
  unfold generate_chatgpt_response
  rw [h1]
  simp [h2]

/-- C5 witness: the success path evaluated on the empty history and the
always-"ok" oracle. -/
theorem generate_request_and_success_witness :
    generate_chatgpt_response [] okApi = Except.ok (pyStrip "ok") :=
  (generate_request_and_success_spec []).2.2.2.2.2.2 okApi ⟨[⟨⟨"assistant", "ok"⟩⟩]⟩
    ⟨⟨"assistant", "ok"⟩⟩ [] rfl rfl

/-- C6: every invocation of the completion call issues exactly one API
request (the trace always holds the single request built from the
history, so there is no retry), a transport or API failure with cause e
surfaces as the single error message carrying e, and an empty choice list
surfaces as the same single error message carrying the IndexError cause. -/
theorem generate_single_request_failure_spec (history : List Message)
    (api : ChatRequest → Except String ApiResponse) (e : String) :
    (generate_chatgpt_response_traced history api).2 = [generate_request history]
    ∧ (generate_chatgpt_response_traced history api).2.length = 1
    ∧ (generate_chatgpt_response_traced history (failApi e)).1
        = Except.error ("Failed to generate AI response: " ++ e)
    ∧ (generate_chatgpt_response_traced history (fun _ => Except.ok ⟨[]⟩)).1
        = Except.error ("Failed to generate AI response: " ++ "list index out of range") :=
  ⟨rfl, rfl, rfl, rfl⟩

/-- C8 counterexample: the JSON body 5 is parseable and contains no
"message" key, yet the webhook answers HTTP 500, not 200 with
"no_message": the membership test "message" in update_data raises
TypeError on a truthy non-container body. -/
theorem webhook_truthy_scalar_500 :
    webhook (Except.ok (Json.num 5)) bot_stats_init 0 =
      ⟨bot_stats_init, 500, "TypeError: argument is not iterable"⟩
    ∧ (webhook (Except.ok (Json.num 5)) bot_stats_init 0).httpCode ≠ 200 :=
  ⟨rfl, by decide⟩

/-- C8 (amended): a JSON body whose message/from/id extraction succeeds on
a hashable id gets the id added to active_users, last_message_time set,
response_count incremented and HTTP 200 "ok"; a falsy body, or a truthy
container body without a "message" key, gets HTTP 200 "no_message" with no
stats mutation; a parse failure, a failing membership test (truthy
non-container body), or a failing extraction gets HTTP 500 with no stats
mutation. -/
theorem webhook_spec (j : Json) (s : Stats) (now : Nat) :
    (∀ v, truthy j = true → keyIn j "message" = Except.ok true →
        ((jGet j "message").bind (fun m => jGet m "from")).bind (fun f => jGet f "id")
          = Except.ok v →
        hashable v = true →
        webhook (Except.ok j) s now =
          ⟨{ s with active_users := setAdd s.active_users v
                    last_message_time := some now
                    response_count := s.response_count + 1 }, 200, "ok"⟩)
    ∧ (truthy j = false → webhook (Except.ok j) s now = ⟨s, 200, "no_message"⟩)
    ∧ (truthy j = true → keyIn j "message" = Except.ok false →
        webhook (Except.ok j) s now = ⟨s, 200, "no_message"⟩)
    ∧ (∀ e, webhook (Except.error e) s now = ⟨s, 500, e⟩)
    ∧ (∀ e, truthy j = true → keyIn j "message" = Except.error e →
        webhook (Except.ok j) s now = ⟨s, 500, e⟩)
    ∧ (∀ e, truthy j = true → keyIn j "message" = Except.ok true →
        ((jGet j "message").bind (fun m => jGet m "from")).bind (fun f => jGet f "id")
          = Except.error e →
        webhook (Except.ok j) s now = ⟨s, 500, e⟩) := by
  refine ⟨?_, ?_, ?_, ?_, ?_, ?_⟩
  · intro v h1 h2 h3 h4
    simp [webhook, h1, h2, h3, h4]
  · intro h1
    simp [webhook, h1]
  · intro h1 h2
    simp [webhook, h1, h2]
  · intro e
    rfl
  · intro e h1 h2
    simp [webhook, h1, h2]
  · intro e h1 h2 h3
    simp [webhook, h1, h2, h3]

/-- C8 witness: the webhook evaluated on the concrete body with message
from id 42 records user 42, stamps the time, increments the counter and
answers 200 "ok". -/
theorem webhook_spec_witness :
    webhook (Except.ok (Json.obj
        [("message", Json.obj [("from", Json.obj [("id", Json.num 42)])])]))
      bot_stats_init 7
      = ⟨{ bot_stats_init with
            active_users := setAdd bot_stats_init.active_users (Json.num 42)
            last_message_time := some 7
            response_count := bot_stats_init.response_count + 1 }, 200, "ok"⟩ :=
  (webhook_spec (Json.obj
      [("message", Json.obj [("from", Json.obj [("id", Json.num 42)])])])
    bot_stats_init 7).1 (Json.num 42) rfl rfl rfl rfl

/-- C9: for every store and user, clearing and then taking a snapshot
yields the empty sequence, and clearing twice leaves the store in exactly
the state of clearing once. -/
theorem clear_then_snapshot_empty_and_idempotent (c : Convs) (uid : Int) :
    snapshot (clear_command c uid).1 uid = []
    ∧ (clear_command (clear_command c uid).1 uid).1 = (clear_command c uid).1 := by
  rcases h : c uid with _ | l
  · exact ⟨by simp [clear_command, h, snapshot], by simp [clear_command, h]⟩
  · constructor
    · simp [clear_command, h, snapshot]
    · have hstore : (clear_command c uid).1 = fun v => if v = uid then some [] else c v := by
        simp [clear_command, h]
      rw [hstore]
      have huid : (fun v => if v = uid then some ([] : List Message) else c v) uid
          = some [] := by simp
      simp only [clear_command, huid]
      funext v
      by_cases hv : v = uid <;> simp [hv]

/-- C10: update_bot_stats treats every falsy argument as absent: user_id 0
leaves active_users, last_message_time and response_count unchanged,
response_time 0 leaves average_response_time unchanged, empty status or
api_status strings leave those flags unchanged, and arguments that are not
supplied never modify their fields; supplying every falsy value at once
leaves the stats exactly as they were. -/
theorem update_bot_stats_falsy_spec (st0 api0 : Option String) (rt0 : Option ℚ)
    (uid0 : Option Int) (now : Nat) (s : Stats) :
    ((update_bot_stats st0 api0 rt0 (some 0) now s).active_users = s.active_users
      ∧ (update_bot_stats st0 api0 rt0 (some 0) now s).last_message_time
          = s.last_message_time
      ∧ (update_bot_stats st0 api0 rt0 (some 0) now s).response_count
          = s.response_count)
    ∧ (update_bot_stats st0 api0 (some 0) uid0 now s).average_response_time
        = s.average_response_time
    ∧ (update_bot_stats (some "") api0 rt0 uid0 now s).status = s.status
    ∧ (update_bot_stats st0 (some "") rt0 uid0 now s).api_status = s.api_status
    ∧ ((update_bot_stats none api0 rt0 uid0 now s).status = s.status
      ∧ (update_bot_stats st0 none rt0 uid0 now s).api_status = s.api_status
      ∧ (update_bot_stats st0 api0 none uid0 now s).average_response_time
          = s.average_response_time
      ∧ (update_bot_stats st0 api0 rt0 none now s).active_users = s.active_users
      ∧ (update_bot_stats st0 api0 rt0 none now s).last_message_time
          = s.last_message_time
      ∧ (update_bot_stats st0 api0 rt0 none now s).response_count = s.response_count)
    ∧ update_bot_stats (some "") (some "") (some 0) (some 0) now s = s := by
  refine ⟨⟨?_, ?_, ?_⟩, ?_, ?_, ?_, ⟨?_, ?_, ?_, ?_, ?_, ?_⟩, ?_⟩
  all_goals
    simp [update_bot_stats, truthyStr, truthyNum, truthyInt]
  all_goals repeat' split
  all_goals rfl

end TelegramBot
